import Mathlib

/-!
Verification of the News-Agent market-research pipeline.

This file gives a shallow embedding of the data-collection, synthesis and
orchestration logic of the repository (`market_research_agent.py`,
`run_market_research.py`, `api/cron.py`) and proves or refutes the frozen
behavioural claims about it.

Modelling conventions:
* HTTP requests are modelled by oracle functions returning `Except Unit`
  (an `.error ()` is a raised client error / non-2xx status), or
  attempt-indexed oracles `Nat -> Except Unit _` where retry behaviour is
  at stake.
* Provider JSON records become structures whose optional fields (`Option`)
  model keys that may be absent; `dict.get(k)` becomes the `Option` value
  itself and `dict[k]` becomes a pattern match whose `none` case raises
  (propagating to the enclosing `try`).
* Python numeric values are modelled as rationals; the `:.2f` float format
  is modelled by `formatFix2` (decimal rounding of the rational).  Numeric
  provider literals that are only ever re-rendered verbatim (prices,
  volumes) are carried as their rendered strings.
* Python `dict` insertion-order semantics are modelled by association
  lists with `dictInsert` (replace in place, append if fresh).
-/

namespace MarketAgent

/-- Two-digit rendering of a natural number below 100 (helper for `%.2f`). -/
def twoDigits (n : ℕ) : String :=
  (if n < 10 then "0" else "") ++ toString n

/-- Rendering of a scaled magnitude `m` (hundredths) as `"<int>.<2 digits>"`. -/
def fix2OfNat (m : ℕ) : String :=
  toString (m / 100) ++ "." ++ twoDigits (m % 100)

/-- `⌊100 q + 1/2⌋` computed on the rational's numerator and denominator
(the denominator is positive, so integer division is the floor). -/
def pyRound100 (q : ℚ) : ℤ :=
  (200 * q.num + (q.den : ℤ)) / (2 * (q.den : ℤ))

/-- Model of Python `f"{q:.2f}"`: round the value to hundredths and render it
with exactly two decimals, a leading minus sign for negative values. -/
def formatFix2 (q : ℚ) : String :=
  if q.num < 0 then "-" ++ fix2OfNat (pyRound100 (Rat.neg q)).toNat
  else fix2OfNat (pyRound100 q).toNat

/-- Equality of `Except` results is decidable componentwise (needed to
evaluate the embedded functions on concrete inputs). -/
instance {ε α : Type} [DecidableEq ε] [DecidableEq α] : DecidableEq (Except ε α) := fun x y =>
  match x, y with
  | .ok a, .ok b => decidable_of_iff (a = b) (by simp)
  | .error a, .error b => decidable_of_iff (a = b) (by simp)
  | .ok _, .error _ => .isFalse (by simp)
  | .error _, .ok _ => .isFalse (by simp)

/-- Python `dict` assignment on an insertion-ordered mapping: replace the value
in place if the key exists, otherwise append the new entry at the end. -/
def dictInsert {α : Type} (k : String) (v : α) : List (String × α) → List (String × α)
  | [] => [(k, v)]
  | (k', v') :: rest => if k' = k then (k, v) :: rest else (k', v') :: dictInsert k v rest

/-! ## Fetch primitive (`MarketDataCollector._fetch_with_retry`)

The attempt oracle maps the attempt index to `some body` (a 2xx response)
or `none` (an `aiohttp.ClientError`, which covers non-2xx statuses via
`raise_for_status` and transport errors).  The result records the returned
value, the number of attempts actually made, and the list of backoff sleeps
(in seconds) performed between attempts. -/

/-- One step of the retry loop of `_fetch_with_retry`: `remaining` is the
number of loop iterations left, `i` the current attempt index, `sleeps` the
backoff waits performed so far.  Mirrors
`for attempt in range(3): try ... except ClientError: if attempt < 2: sleep(2 ** attempt)`. -/
def retryFrom (oracle : ℕ → Option String) :
    (remaining i : ℕ) → List ℕ → Option String × ℕ × List ℕ
  | 0, i, sleeps => (none, i, sleeps)
  | r + 1, i, sleeps =>
    match oracle i with
    | some body => (some body, i + 1, sleeps)
    | none =>
      if r = 0 then (none, i + 1, sleeps)
      else retryFrom oracle r (i + 1) (sleeps ++ [2 ^ i])

/-- `MarketDataCollector._fetch_with_retry`: three attempts, exponential
backoff between consecutive attempts, `None` after exhausting all attempts. -/
def fetchWithRetry (oracle : ℕ → Option String) : Option String × ℕ × List ℕ :=
  retryFrom oracle 3 0 []

/-! ## Headline aggregation (`MarketDataCollector.fetch_headlines`) -/

/-- One record of a news-feed response; `title` is `none` when the `title`
key is absent. -/
structure NewsItem where
  title : Option String
deriving DecidableEq

/-- The decoded JSON shape of one news source's response, as the adapter
distinguishes them: a list of records, a dict wrapping records under the
`data` key, a dict without a `data` key, or any other (or empty) payload. -/
inductive NewsData where
  | list (items : List NewsItem)
  | dictData (items : List NewsItem)
  | dictOther
  | other
deriving DecidableEq

/-- Title extraction from one record:
`'title' in item and item['title']` — the title is kept only when the key is
present and the value truthy (non-empty). -/
def titleOf (it : NewsItem) : Option String :=
  match it.title with
  | some t => if t = "" then none else some t
  | none => none

/-- Title extraction from one source's decoded payload, applied to the
record list of either recognised shape; unrecognised shapes contribute
nothing. -/
def extractTitles : NewsData → List String
  | .list items => items.filterMap titleOf
  | .dictData items => items.filterMap titleOf
  | .dictOther => []
  | .other => []

/-- Contribution of one source given its request outcome: a raised error is
caught (`except ... continue`) and contributes zero headlines. -/
def sourceTitles (r : Except Unit NewsData) : List String :=
  match r with
  | .error _ => []
  | .ok d => extractTitles d

/-- The dedup loop of `fetch_headlines`: `seen` is the set of already-kept
titles; a headline is kept iff it is truthy (non-empty) and not yet seen. -/
def uniqueGo (seen : List String) : List String → List String
  | [] => []
  | h :: rest =>
    if h ≠ "" ∧ h ∉ seen then h :: uniqueGo (h :: seen) rest
    else uniqueGo seen rest

/-- `fetch_headlines`' duplicate removal, starting from an empty seen set. -/
def uniqueHeadlines (l : List String) : List String :=
  uniqueGo [] l

/-- First-occurrence duplicate removal, the specification-side rendering of
"removes exact-duplicate titles keeping first occurrence (stable order)". -/
def specDedup : List String → List String
  | [] => []
  | x :: xs => x :: specDedup (xs.filter (fun y => y ≠ x))
termination_by l => l.length
decreasing_by
  exact Nat.lt_succ_of_le (List.length_filter_le _ _)

/-- The four per-category news requests of `fetch_headlines`, each as an
attempt-indexed oracle (the adapter itself only ever issues attempt 0). -/
structure NewsOracles where
  stock : ℕ → Except Unit NewsData
  forex : ℕ → Except Unit NewsData
  crypto : ℕ → Except Unit NewsData
  general : ℕ → Except Unit NewsData

/-- `MarketDataCollector.fetch_headlines`: without an API key returns `[]`;
otherwise issues one direct request per source (attempt index 0, no retry),
concatenates the extracted titles in source order, removes duplicates
keeping first occurrence, and truncates to the first 300. -/
def fetchHeadlines (hasKey : Bool) (o : NewsOracles) : List String :=
  if hasKey then
    (uniqueHeadlines
      (sourceTitles (o.stock 0) ++ sourceTitles (o.forex 0) ++
       sourceTitles (o.crypto 0) ++ sourceTitles (o.general 0))).take 300
  else []

/-- Retry wrapper over a news oracle, following `_fetch_with_retry`'s loop:
first successful attempt among indices 0, 1, 2 wins. -/
def retryNews (a : ℕ → Except Unit NewsData) : Except Unit NewsData :=
  match a 0 with
  | .ok d => .ok d
  | .error _ =>
    match a 1 with
    | .ok d => .ok d
    | .error _ => a 2

/-- Modelled from the claim's words, for comparison with `fetchHeadlines`:
the headline adapter issuing its four category requests THROUGH the fetch
primitive, i.e. each request with the retry budget of `_fetch_with_retry`. -/
def specHeadlinesViaRetry (hasKey : Bool) (o : NewsOracles) : List String :=
  if hasKey then
    (uniqueHeadlines
      (sourceTitles (retryNews o.stock) ++ sourceTitles (retryNews o.forex) ++
       sourceTitles (retryNews o.crypto) ++ sourceTitles (retryNews o.general))).take 300
  else []

/-! ## Yield adapter (`MarketDataCollector._fetch_yields_sync`) -/

/-- One record of a quote response as used by the yield adapter;
`price` is `none` when the `price` key is absent (`data[0].get('price')`). -/
structure YieldQuote where
  price : Option ℚ
deriving DecidableEq

/-- The fixed tracked instruments of `_fetch_yields_sync`, in loop order. -/
def yieldSymbols : List (String × String) :=
  [("US 13W", "^IRX"), ("US 5Y", "^FVX"), ("US 10Y", "^TNX"), ("US 30Y", "^TYX")]

/-- The per-symbol loop of `_fetch_yields_sync`.  A request failure raises out
of the loop (result `none`, the enclosing `except` returns `{}`); an empty
response body just skips the symbol; otherwise the first record's `price`
value (possibly absent) is stored under the instrument label. -/
def yieldsLoop (resp : String → Except Unit (List YieldQuote)) :
    List (String × String) → List (String × Option ℚ) →
    Option (List (String × Option ℚ))
  | [], acc => some acc
  | (name, sym) :: rest, acc =>
    match resp sym with
    | .error _ => none
    | .ok [] => yieldsLoop resp rest acc
    | .ok (q :: _) => yieldsLoop resp rest (dictInsert name q.price acc)

/-- `MarketDataCollector._fetch_yields_sync`: iterate the four tracked
symbols; any raised request error yields the empty mapping. -/
def fetchYieldsSync (resp : String → Except Unit (List YieldQuote)) :
    List (String × Option ℚ) :=
  match yieldsLoop resp yieldSymbols [] with
  | none => []
  | some ys => ys

/-- Modelled from the claim's words, for comparison with `fetchYieldsSync`:
a failed symbol's entry is omitted while the entries of the other symbols
are kept. -/
def claimYieldsBehavior (resp : String → Except Unit (List YieldQuote)) :
    List (String × Option ℚ) :=
  yieldSymbols.filterMap (fun p =>
    match resp p.2 with
    | .ok (q :: _) => some (p.1, q.price)
    | _ => none)

/-! ## Benchmark and movers records -/

/-- One record of an FMP quote / actives / gainers / losers response.
`symbol` and `name` are `none` when the key is absent (`item['symbol']`
and `item['name']` then raise `KeyError`); `changesPercentage` is the
numeric percent change; `price`, `change` and `volume` are numeric
provider literals carried as their rendered strings, `none` when absent. -/
structure FmpRecord where
  symbol : Option String
  name : Option String
  changesPercentage : Option ℚ
  price : Option String
  change : Option String
  volume : Option String
deriving DecidableEq

/-- The stored value of one benchmark entry
(`{'price': ..., 'change': ..., 'change_pct': ...}`). -/
structure BenchmarkQuote where
  price : Option String
  change : Option String
  change_pct : String
deriving DecidableEq

/-- The record loop of `_fetch_benchmarks_sync`: each record is stored under
`item['name']` (a missing `name` key raises, the enclosing `except` returns
`{}`); `price` and `change` are kept even when absent; `change_pct` is
`f"{item.get('changesPercentage', 0):.2f}"`. -/
def benchLoop : List FmpRecord → List (String × BenchmarkQuote) →
    Option (List (String × BenchmarkQuote))
  | [], acc => some acc
  | r :: rest, acc =>
    match r.name with
    | none => none
    | some n =>
      benchLoop rest
        (dictInsert n ⟨r.price, r.change, formatFix2 (r.changesPercentage.getD 0)⟩ acc)

/-- `MarketDataCollector._fetch_benchmarks_sync`: one batched request; a
request failure or any record lacking `name` yields the empty mapping. -/
def fetchBenchmarksSync (resp : Except Unit (List FmpRecord)) :
    List (String × BenchmarkQuote) :=
  match resp with
  | .error _ => []
  | .ok data =>
    match benchLoop data [] with
    | none => []
    | some bs => bs

/-! ## Movers adapter (`MarketDataCollector._fetch_major_movers_sync`) -/

/-- One entry of the movers list.  In the primary path `price` and `volume`
are always present (defaulting to `"N/A"`); fallback entries lack both keys. -/
structure MoverEntry where
  symbol : String
  name : String
  change_pct : String
  price : Option String
  volume : Option String
  type : String
deriving DecidableEq

/-- Sort key of the primary path: `abs(x.get('changesPercentage', 0))`. -/
def moverKey (r : FmpRecord) : ℚ :=
  |r.changesPercentage.getD 0|

/-- Stable descending insertion by key: an element goes in front of the first
strictly-smaller-keyed element, after all earlier elements of ≥ key (so
elements of equal key keep their original relative order, matching Python's
stable `sorted(..., reverse=True)`). -/
def insertDesc {α : Type} (key : α → ℚ) (x : α) : List α → List α
  | [] => [x]
  | y :: ys => if key y ≤ key x then x :: y :: ys else y :: insertDesc key x ys

/-- Stable sort, descending by key (model of `sorted(l, key=..., reverse=True)`). -/
def pySortByKeyDesc {α : Type} (key : α → ℚ) (l : List α) : List α :=
  l.foldr (insertDesc key) []

/-- Construction of one primary-path mover entry
(`item['symbol']`/`item['name']` raise when absent; `changesPercentage` is
present on every record reaching this point since the sign filter excludes
absent values via its 0 default). -/
def mkPrimaryMover (tag : String) (r : FmpRecord) : Option MoverEntry :=
  match r.symbol, r.name with
  | some s, some n =>
    some ⟨s, n, formatFix2 (r.changesPercentage.getD 0) ++ "%",
      some (r.price.getD "N/A"), some (r.volume.getD "N/A"), tag⟩
  | _, _ => none

/-- A primary-path append loop over one tag's records: appends entries to the
accumulated movers list; a record missing `symbol` or `name` raises mid-loop,
leaving the entries appended so far in place (`Bool` result = raised). -/
def appendMovers (tag : String) : List FmpRecord → List MoverEntry →
    List MoverEntry × Bool
  | [], acc => (acc, false)
  | r :: rest, acc =>
    match mkPrimaryMover tag r with
    | none => (acc, true)
    | some m => appendMovers tag rest (acc ++ [m])

/-- Construction of one fallback mover entry: `item['symbol']`,
`item['name']` and `f"{item['changesPercentage']:.2f}%"` all raise when the
key is absent; no `price`/`volume` keys are stored. -/
def mkFallbackMover (tag : String) (r : FmpRecord) : Option MoverEntry :=
  match r.symbol, r.name, r.changesPercentage with
  | some s, some n, some cp => some ⟨s, n, formatFix2 cp ++ "%", none, none, tag⟩
  | _, _, _ => none

/-- Fallback append loop over the first ten records of one endpoint's data;
a raised `KeyError` aborts (`none`). -/
def appendFallback (tag : String) : List FmpRecord → List MoverEntry →
    Option (List MoverEntry)
  | [], acc => some acc
  | r :: rest, acc =>
    match mkFallbackMover tag r with
    | none => none
    | some m => appendFallback tag rest (acc ++ [m])

/-- The fallback tier of `_fetch_major_movers_sync`: the gainers endpoint,
then the losers endpoint, each contributing its first ten records, appended
onto whatever `movers` already holds; ANY raised error inside the fallback
`try` returns the empty list literal. -/
def fallbackStep (acc : List MoverEntry) (g l : Except Unit (List FmpRecord)) :
    List MoverEntry :=
  match g with
  | .error _ => []
  | .ok gd =>
    match appendFallback "gainers" (gd.take 10) acc with
    | none => []
    | some acc1 =>
      match l with
      | .error _ => []
      | .ok ld =>
        match appendFallback "losers" (ld.take 10) acc1 with
        | none => []
        | some acc2 => acc2

/-- `MarketDataCollector._fetch_major_movers_sync`.  Primary path: on a
non-empty actives response, sort the FIRST FIFTY records by absolute percent
change descending, filter positives and negatives, take ten of each, and
append them (tagged `gainers` then `losers`) to the movers list; if that
list is non-empty it is returned.  A raised error (request failure or a
record missing `symbol`/`name` mid-append) or an empty movers list falls
through to the fallback tier, the movers accumulated so far staying in the
list the fallback appends to. -/
def fetchMajorMoversSync (actives g l : Except Unit (List FmpRecord)) :
    List MoverEntry :=
  match actives with
  | .error _ => fallbackStep [] g l
  | .ok data =>
    if data = [] then fallbackStep [] g l
    else
      let sortedByChange := pySortByKeyDesc moverKey (data.take 50)
      let gainers := (sortedByChange.filter
        (fun r => r.changesPercentage.getD 0 > 0)).take 10
      let losers := (sortedByChange.filter
        (fun r => r.changesPercentage.getD 0 < 0)).take 10
      match appendMovers "gainers" gainers [] with
      | (acc, true) => fallbackStep acc g l
      | (acc, false) =>
        match appendMovers "losers" losers acc with
        | (acc2, true) => fallbackStep acc2 g l
        | (acc2, false) => if acc2 = [] then fallbackStep acc2 g l else acc2

/-- Modelled from the claim's words, for comparison with the primary path of
`fetchMajorMoversSync`: sort the WHOLE most-active list by absolute percent
change descending, then return at most ten positive entries tagged gainers
plus at most ten negative entries tagged losers. -/
def specPrimaryMovers (data : List FmpRecord) : List MoverEntry :=
  let sortedAll := pySortByKeyDesc moverKey data
  ((sortedAll.filter (fun r => r.changesPercentage.getD 0 > 0)).take 10).filterMap
    (mkPrimaryMover "gainers") ++
  ((sortedAll.filter (fun r => r.changesPercentage.getD 0 < 0)).take 10).filterMap
    (mkPrimaryMover "losers")

/-! ## Synthesis client (`MarketResearchAgent._try_llm_with_fallback`)
and prompt formatting (`analyze_market`) -/

/-- The `input_data` dict handed to the LLM chains. -/
structure PromptInput where
  current_date : String
  headlines : String
  formatted_yields : String
  formatted_benchmarks : String
  formatted_movers : String
deriving DecidableEq

/-- `MarketResearchAgent._try_llm_with_fallback`: the primary model is
invoked first; only on its failure is the fallback model invoked, with the
identical input; if both fail the raised error carries both causes.  The
second component records every model invocation in order
(`true` = primary, `false` = fallback) with the input it received. -/
def tryLlmWithFallback (p f : PromptInput → Except String String)
    (input : PromptInput) : Except String String × List (Bool × PromptInput) :=
  match p input with
  | .ok r => (.ok r, [(true, input)])
  | .error e =>
    match f input with
    | .ok r => (.ok r, [(true, input), (false, input)])
    | .error e2 =>
      (.error ("Both models failed. Primary: " ++ e ++ ", Fallback: " ++ e2),
       [(true, input), (false, input)])

/-- Rendering of one yield line, `f"{name}: {value:.2f}%"`.  A `None` rate
(absent `price` in the provider record) raises a `TypeError` out of the
format expression. -/
def yieldLine (e : String × Option ℚ) : Except String String :=
  match e.2 with
  | none => .error "TypeError: unsupported format string passed to NoneType.__format__"
  | some q => .ok (e.1 ++ ": " ++ formatFix2 q ++ "%")

/-- The left-to-right evaluation of the yield list comprehension; the first
absent rate raises. -/
def yieldLines : List (String × Option ℚ) → Except String (List String)
  | [] => .ok []
  | e :: rest =>
    match yieldLine e with
    | .error er => .error er
    | .ok s =>
      match yieldLines rest with
      | .error er => .error er
      | .ok ss => .ok (s :: ss)

/-- `formatted_yields`: joined yield lines, or the literal placeholder for an
empty mapping; a `None` rate propagates its `TypeError`. -/
def formattedYields (ys : List (String × Option ℚ)) : Except String String :=
  if ys = [] then .ok "Data not available."
  else (yieldLines ys).map (String.intercalate "\n")

/-- Rendering of an optional provider literal inside an f-string
(`None` renders as the text `None`). -/
def renderOpt (o : Option String) : String :=
  match o with
  | none => "None"
  | some s => s

/-- Rendering of one benchmark line,
`f"- {name}: {details['price']} ({details['change_pct']} %)"` — note the
space between the percent value and the percent sign. -/
def benchmarkLine (e : String × BenchmarkQuote) : String :=
  "- " ++ e.1 ++ ": " ++ renderOpt e.2.price ++ " (" ++ e.2.change_pct ++ " %)"

/-- `formatted_benchmarks`: joined benchmark lines, or the literal
placeholder for an empty mapping. -/
def formattedBenchmarks (bs : List (String × BenchmarkQuote)) : String :=
  if bs = [] then "Data not available."
  else String.intercalate "\n" (bs.map benchmarkLine)

/-- Rendering of one mover line,
`f"- {mover['name']} ({mover['symbol']}): {mover['change_pct']} ({mover['type']})"`. -/
def moverLine (m : MoverEntry) : String :=
  "- " ++ m.name ++ " (" ++ m.symbol ++ "): " ++ m.change_pct ++ " (" ++ m.type ++ ")"

/-- `formatted_movers`: joined mover lines, or the literal placeholder for an
empty sequence. -/
def formattedMovers (ms : List MoverEntry) : String :=
  if ms = [] then "Data not available."
  else String.intercalate "\n" (ms.map moverLine)

/-- The headlines block of `input_data`:
`"\n".join(headlines) if headlines else "Data not available."`. -/
def headlinesBlock (hs : List String) : String :=
  if hs = [] then "Data not available."
  else String.intercalate "\n" hs

/-- The `input_data` built by `analyze_market` (an exception from yield
formatting propagates). -/
def promptInputOf (today : String) (hs : List String)
    (ys : List (String × Option ℚ)) (bs : List (String × BenchmarkQuote))
    (ms : List MoverEntry) : Except String PromptInput :=
  (formattedYields ys).map (fun fy =>
    ⟨today, headlinesBlock hs, fy, formattedBenchmarks bs, formattedMovers ms⟩)

/-! ## Orchestration (`analyze_market`, `api/cron.run_market_research`) -/

/-- The circuit-breaker error text of `analyze_market`. -/
def circuitBreakerMessage : String :=
  "Failed to collect any market data. All sources may be down or API keys invalid. Aborting analysis."

/-- The `asyncio.gather(..., return_exceptions=True)` normalisation: an
adapter outcome that is an exception becomes the empty collection. -/
def collected {α : Type} (empty : α) (r : Except String α) : α :=
  match r with
  | .error _ => empty
  | .ok v => v

/-- The circuit-breaker condition `not any([headlines, yields, benchmarks,
movers])`: true exactly when all four collections are empty. -/
def nonViable (hs : List String) (ys : List (String × Option ℚ))
    (bs : List (String × BenchmarkQuote)) (ms : List MoverEntry) : Bool :=
  hs.isEmpty && ys.isEmpty && bs.isEmpty && ms.isEmpty

/-- `MarketResearchAgent.analyze_market`, from the four gathered adapter
outcomes on.  Returns the analysis text together with the synthesis
invocation trace; `.error` is an uncaught exception (the `TypeError` of
formatting a `None` yield rate, which occurs before the guarded LLM call).
On the non-viable branch the circuit-breaker message is RETURNED as the
analysis string; a synthesis failure is likewise caught and its message
returned as the analysis string. -/
def analyzeMarket (today : String)
    (rH : Except String (List String))
    (rY : Except String (List (String × Option ℚ)))
    (rB : Except String (List (String × BenchmarkQuote)))
    (rM : Except String (List MoverEntry))
    (p f : PromptInput → Except String String) :
    Except String (String × List (Bool × PromptInput)) :=
  let hs := collected [] rH
  let ys := collected [] rY
  let bs := collected [] rB
  let ms := collected [] rM
  if nonViable hs ys bs ms then .ok (circuitBreakerMessage, [])
  else
    match promptInputOf today hs ys bs ms with
    | .error e => .error e
    | .ok input =>
      match tryLlmWithFallback p f input with
      | (.ok text, trace) => .ok (text, trace)
      | (.error e, trace) =>
        .ok ("An error occurred during AI analysis: " ++ e, trace)

/-- The structured result dict of `api/cron.run_market_research` (the
timestamp is omitted; `email_sent`/`slack_sent` are `none` on the error
path, where the dict lacks those keys). -/
structure RunResult where
  success : Bool
  email_sent : Option Bool
  slack_sent : Option Bool
  error : Option String
  message : String
deriving DecidableEq

/-- The delivery calls performed by the run: the analysis text handed to the
email pipeline (`format_email_content` + `EmailSender.send`, HTML templating
out of scope) and the raw analysis text handed to `SlackSender.send`. -/
structure DeliveryTrace where
  emailDispatched : List String
  slackDispatched : List String
deriving DecidableEq

/-- `api/cron.run_market_research`: runs `analyze_market`, then hands the
returned analysis to the email dispatcher and (when a Slack token is
configured) to the chat dispatcher, and reports `success=True` whenever
`analyze_market` returned normally — whatever text it returned.  Dispatcher
boolean outcomes are `emailOk`/`slackOk`. -/
def runMarketResearch (today : String)
    (rH : Except String (List String))
    (rY : Except String (List (String × Option ℚ)))
    (rB : Except String (List (String × BenchmarkQuote)))
    (rM : Except String (List MoverEntry))
    (p f : PromptInput → Except String String)
    (emailOk slackConfigured slackOk : Bool) : RunResult × DeliveryTrace :=
  match analyzeMarket today rH rY rB rM p f with
  | .error e =>
    (⟨false, none, none, some e, "Market research failed"⟩, ⟨[], []⟩)
  | .ok (analysis, _) =>
    (⟨true, some emailOk, some (if slackConfigured then slackOk else true),
      none, "Market research completed successfully"⟩,
     ⟨[analysis], if slackConfigured then [analysis] else []⟩)

/-! ## Theorems -/

/-- C3: for every URL the fetch primitive attempts the request up to three
times, counting every non-2xx status or transport error as a failed attempt,
returns the body of the first 2xx response, waits `2^attemptIndex` seconds
between consecutive attempts (1s then 2s) with no wait after the final
failed attempt, and returns a failure only after exhausting all attempts. -/
theorem c3_fetch_retry :
    (∀ o b, o 0 = some b → fetchWithRetry o = (some b, 1, [])) ∧
    (∀ o b, o 0 = none → o 1 = some b → fetchWithRetry o = (some b, 2, [1])) ∧
    (∀ o b, o 0 = none → o 1 = none → o 2 = some b →
      fetchWithRetry o = (some b, 3, [1, 2])) ∧
    (∀ o, o 0 = none → o 1 = none → o 2 = none →
      fetchWithRetry o = (none, 3, [1, 2])) := by
  refine ⟨?_, ?_, ?_, ?_⟩ <;> intros <;>
    simp [fetchWithRetry, retryFrom, *]

/-- Witness for C3: an endpoint that fails twice then succeeds is attempted
exactly three times with backoff waits of 1s then 2s, and the third result
is returned; one that always fails is attempted exactly three times and a
failure is returned. -/
theorem c3_fetch_retry_witness :
    fetchWithRetry (fun i => if i = 2 then some "B" else none) =
      (some "B", 3, [1, 2]) ∧
    fetchWithRetry (fun _ => (none : Option String)) = (none, 3, [1, 2]) :=
  ⟨c3_fetch_retry.2.2.1 _ _ rfl rfl rfl,
   c3_fetch_retry.2.2.2 _ rfl rfl rfl⟩

/-- C8: the synthesis client submits to the primary model first; when and
only when the primary call fails it invokes the fallback model exactly once
with the identical input and returns the fallback's outcome; primary and
fallback are each invoked at most once, in that order (the invocation trace
lists every call in order). -/
theorem c8_synthesis_order :
    (∀ p f input r, p input = .ok r →
      tryLlmWithFallback p f input = (.ok r, [(true, input)])) ∧
    (∀ p f input e r, p input = .error e → f input = .ok r →
      tryLlmWithFallback p f input = (.ok r, [(true, input), (false, input)])) ∧
    (∀ p f input e e2, p input = .error e → f input = .error e2 →
      tryLlmWithFallback p f input =
        (.error ("Both models failed. Primary: " ++ e ++ ", Fallback: " ++ e2),
         [(true, input), (false, input)])) := by
  refine ⟨?_, ?_, ?_⟩ <;> intros <;>
    simp [tryLlmWithFallback, *]

/-- Witness for C8: a primary mock that raises and a fallback mock that
succeeds — the result equals the fallback's output and the trace shows both
invoked exactly once, primary first, on the identical input. -/
theorem c8_synthesis_order_witness :
    tryLlmWithFallback (fun _ => .error "boom") (fun _ => .ok "out")
        ⟨"d", "h", "y", "b", "m"⟩ =
      (.ok "out", [(true, ⟨"d", "h", "y", "b", "m"⟩),
                   (false, ⟨"d", "h", "y", "b", "m"⟩)]) :=
  c8_synthesis_order.2.1 _ _ _ "boom" _ rfl rfl

/-- C10: in the movers fallback path, a failure of either dedicated endpoint
request makes the adapter return the empty list, discarding any entries
already collected from the endpoint that succeeded; the fallback result is
all-or-nothing, never a partial single-category list.  (The third conjunct
ties `fallbackStep` to the adapter: a failed primary attempt enters the
fallback path.) -/
theorem c10_fallback_all_or_nothing :
    (∀ acc l, fallbackStep acc (.error ()) l = []) ∧
    (∀ acc gd, fallbackStep acc (.ok gd) (.error ()) = []) ∧
    (∀ g l, fetchMajorMoversSync (.error ()) g l = fallbackStep [] g l) := by
  refine ⟨fun acc l => rfl, fun acc gd => ?_, fun g l => rfl⟩
  cases h : appendFallback "gainers" (gd.take 10) acc <;>
    simp [fallbackStep, h]

/-- Helper: with no absent rates, the yield-line traversal succeeds and is a
plain map. -/
theorem yieldLines_ok : ∀ ys : List (String × Option ℚ),
    (∀ e ∈ ys, e.2 ≠ none) →
    yieldLines ys =
      .ok (ys.map (fun e => e.1 ++ ": " ++ formatFix2 (e.2.getD 0) ++ "%")) := by
  intro ys
  induction ys with
  | nil => intro _; rfl
  | cons e rest ih =>
    intro h
    obtain ⟨q, hq⟩ : ∃ q, e.2 = some q := by
      cases he : e.2 with
      | none => exact absurd he (h e (List.mem_cons_self e rest))
      | some q => exact ⟨q, rfl⟩
    have hrest := ih (fun x hx => h x (List.mem_cons_of_mem e hx))
    simp [yieldLines, hrest, yieldLine, hq]

/-- C9 (corrected): the synthesis prompt renders each yield entry as a
`"{label}: {rate:.2f}%"` line, each benchmark as a
`"- {name}: {price} ({changePercent} %)"` line — with a space before the
percent sign, unlike the claim's `({changePercent}%)` — each mover as a
`"- {name} ({symbol}): {changePercent} ({category})"` line, and any empty
section literally as `"Data not available."`; a snapshot with
`yields={"US 10Y": 4.25}` and `movers=[]` renders the yields section exactly
as `"US 10Y: 4.25%"` and the movers section exactly as
`"Data not available."`. -/
theorem c9_prompt_rendering :
    (∀ ys : List (String × Option ℚ), ys ≠ [] → (∀ e ∈ ys, e.2 ≠ none) →
      formattedYields ys =
        .ok (String.intercalate "\n"
          (ys.map (fun e => e.1 ++ ": " ++ formatFix2 (e.2.getD 0) ++ "%")))) ∧
    formattedYields [] = .ok "Data not available." ∧
    (∀ bs : List (String × BenchmarkQuote), bs ≠ [] →
      formattedBenchmarks bs =
        String.intercalate "\n"
          (bs.map (fun e => "- " ++ e.1 ++ ": " ++ renderOpt e.2.price ++
            " (" ++ e.2.change_pct ++ " %)"))) ∧
    formattedBenchmarks [] = "Data not available." ∧
    (∀ ms : List MoverEntry, ms ≠ [] →
      formattedMovers ms =
        String.intercalate "\n"
          (ms.map (fun m => "- " ++ m.name ++ " (" ++ m.symbol ++ "): " ++
            m.change_pct ++ " (" ++ m.type ++ ")"))) ∧
    formattedMovers [] = "Data not available." ∧
    formattedYields [("US 10Y", some (mkRat 17 4))] = .ok "US 10Y: 4.25%" := by
  refine ⟨?_, rfl, ?_, rfl, ?_, rfl, ?_⟩
  · intro ys hne h
    simp [formattedYields, hne, yieldLines_ok ys h, Except.map]
  · intro bs hne
    simp only [formattedBenchmarks, if_neg hne]
    rfl
  · intro ms hne
    simp only [formattedMovers, if_neg hne]
    rfl
  · decide

/-- Witness for C9: the characterisations applied to the end-to-end-scenario
snapshot (`yields={"US 10Y": 4.25}`, one benchmark, one mover, empty
movers handled by the placeholder conjunct). -/
theorem c9_prompt_rendering_witness :
    formattedYields [("US 10Y", some (mkRat 17 4))] =
      .ok (String.intercalate "\n" (([("US 10Y", some (mkRat 17 4))]).map
        (fun e => e.1 ++ ": " ++ formatFix2 (e.2.getD 0) ++ "%"))) ∧
    formattedBenchmarks [("S&P 500", ⟨some "5000", none, "0.50"⟩)] =
      String.intercalate "\n" (([("S&P 500",
          (⟨some "5000", none, "0.50"⟩ : BenchmarkQuote))]).map
        (fun e => "- " ++ e.1 ++ ": " ++ renderOpt e.2.price ++
          " (" ++ e.2.change_pct ++ " %)")) ∧
    formattedMovers [⟨"AAA", "Alpha", "2.00%", none, none, "gainers"⟩] =
      String.intercalate "\n" (([(⟨"AAA", "Alpha", "2.00%", none, none,
          "gainers"⟩ : MoverEntry)]).map
        (fun m => "- " ++ m.name ++ " (" ++ m.symbol ++ "): " ++
          m.change_pct ++ " (" ++ m.type ++ ")")) :=
  ⟨c9_prompt_rendering.1 _ (by decide) (by decide),
   c9_prompt_rendering.2.2.1 _ (by decide),
   c9_prompt_rendering.2.2.2.2.1 _ (by decide)⟩

/-- Counterexample for C9 as stated: the benchmark line is rendered with a
space between the percent value and the percent sign, so the claimed
`"- {name}: {price} ({changePercent}%)"` shape is wrong. -/
theorem c9_prompt_rendering_counterexample :
    formattedBenchmarks [("S&P 500", ⟨some "5000", none, "0.50"⟩)] ≠
      "- S&P 500: 5000 (0.50%)" ∧
    formattedBenchmarks [("S&P 500", ⟨some "5000", none, "0.50"⟩)] =
      "- S&P 500: 5000 (0.50 %)" := by
  exact ⟨by decide, by decide⟩

/-- Helper: on a list without empty strings, the seen-set dedup loop computes
first-occurrence deduplication of the titles not yet seen. -/
theorem uniqueGo_eq_specDedup (l : List String) : ∀ seen, "" ∉ l →
    uniqueGo seen l = specDedup (l.filter (fun y => y ∉ seen)) := by
  induction l with
  | nil => intro seen _; simp [uniqueGo, specDedup]
  | cons h rest ih =>
    intro seen hne
    have hh : h ≠ "" := by
      intro e
      exact hne (by simp [e])
    have hrest : "" ∉ rest := fun hx => hne (List.mem_cons_of_mem _ hx)
    by_cases hmem : h ∈ seen
    · rw [uniqueGo, if_neg (by simp [hmem]), List.filter_cons]
      simp only [hmem, not_true_eq_false, decide_eq_false, if_false]
      exact ih seen hrest
    · rw [uniqueGo, if_pos ⟨hh, hmem⟩, List.filter_cons]
      simp only [hmem, not_false_eq_true, decide_eq_true, if_true]
      rw [specDedup.eq_def]
      congr 1
      rw [ih (h :: seen) hrest, List.filter_filter]
      congr 1
      apply List.filter_congr
      intro y _
      simp only [List.mem_cons, not_or, decide_not]
      cases Decidable.em (y = h) with
      | inl e => simp [e]
      | inr e => simp [e]

/-- Helper: on a list without empty strings, the adapter's dedup equals
first-occurrence deduplication. -/
theorem uniqueHeadlines_eq_specDedup (l : List String) (h : "" ∉ l) :
    uniqueHeadlines l = specDedup l := by
  rw [uniqueHeadlines, uniqueGo_eq_specDedup l [] h]
  congr 1
  simp

/-- C7: headline aggregation removes exact-string duplicate titles keeping
the first occurrence in stable order, then truncates to at most 300 entries
regardless of how many unique titles were collected (titles reaching the
dedup stage are non-empty, as the per-source extraction drops falsy titles). -/
theorem c7_dedup_truncate : ∀ titles : List String, "" ∉ titles →
    uniqueHeadlines titles = specDedup titles ∧
    (uniqueHeadlines titles).take 300 = (specDedup titles).take 300 ∧
    ((uniqueHeadlines titles).take 300).length ≤ 300 := by
  intro titles h
  have he := uniqueHeadlines_eq_specDedup titles h
  refine ⟨he, by rw [he], ?_⟩
  exact List.length_take_le 300 (uniqueHeadlines titles)

/-- Witness for C7: the claim's concrete example,
`dedup([a,b,a,c,b]) == [a,b,c]`. -/
theorem c7_dedup_truncate_witness :
    uniqueHeadlines ["a", "b", "a", "c", "b"] =
      specDedup ["a", "b", "a", "c", "b"] ∧
    uniqueHeadlines ["a", "b", "a", "c", "b"] = ["a", "b", "c"] :=
  ⟨(c7_dedup_truncate _ (by decide)).1, by decide⟩

/-- Helper: extracted titles are never the empty string (the extraction
drops falsy titles). -/
theorem empty_not_mem_sourceTitles (r : Except Unit NewsData) :
    "" ∉ sourceTitles r := by
  have hf : ∀ it : NewsItem, titleOf it ≠ some "" := by
    intro it
    cases h : it.title with
    | none => simp [titleOf, h]
    | some t =>
      by_cases ht : t = "" <;> simp [titleOf, h, ht]
  cases r with
  | error e => simp [sourceTitles]
  | ok d =>
    cases d <;> simp [sourceTitles, extractTitles] <;>
      exact fun it _ => hf it

/-- C5 (corrected): the headline adapter issues its four category requests
directly — a single attempt each, NOT through the retry primitive —: the
result depends only on the attempt-0 outcome of every source; a failed
source contributes zero headlines without propagating any error (the result
of the aggregation is the first-occurrence dedup of the four sources'
contributions, truncated to 300, so one source's outcome never affects
another's contribution), and the caller always receives a (possibly empty)
sequence of at most 300 headlines. -/
theorem c5_headline_sources :
    (∀ o : NewsOracles, fetchHeadlines true o =
      (specDedup (sourceTitles (o.stock 0) ++ sourceTitles (o.forex 0) ++
        sourceTitles (o.crypto 0) ++ sourceTitles (o.general 0))).take 300) ∧
    (∀ (hk : Bool) (o o' : NewsOracles), o.stock 0 = o'.stock 0 →
      o.forex 0 = o'.forex 0 → o.crypto 0 = o'.crypto 0 →
      o.general 0 = o'.general 0 → fetchHeadlines hk o = fetchHeadlines hk o') ∧
    sourceTitles (.error ()) = [] ∧
    (∀ (hk : Bool) (o : NewsOracles), (fetchHeadlines hk o).length ≤ 300) := by
  refine ⟨?_, ?_, rfl, ?_⟩
  · intro o
    rw [fetchHeadlines, if_pos rfl]
    congr 1
    apply uniqueHeadlines_eq_specDedup
    intro hmem
    rcases List.mem_append.mp hmem with hmem | h4
    · rcases List.mem_append.mp hmem with hmem | h3
      · rcases List.mem_append.mp hmem with h1 | h2
        · exact empty_not_mem_sourceTitles _ h1
        · exact empty_not_mem_sourceTitles _ h2
      · exact empty_not_mem_sourceTitles _ h3
    · exact empty_not_mem_sourceTitles _ h4
  · intro hk o o' h1 h2 h3 h4
    simp [fetchHeadlines, h1, h2, h3, h4]
  · intro hk o
    cases hk with
    | false => simp [fetchHeadlines]
    | true =>
      rw [fetchHeadlines, if_pos rfl]
      exact List.length_take_le 300 _

/-- Witness for C5: the characterisation applied to a concrete snapshot of
source outcomes (stock succeeds with two titles, the others fail). -/
theorem c5_headline_sources_witness :
    fetchHeadlines true
        ⟨fun _ => .ok (.list [⟨some "A"⟩, ⟨some "B"⟩]), fun _ => .error (),
         fun _ => .error (), fun _ => .error ()⟩ =
      (specDedup (sourceTitles (.ok (.list [⟨some "A"⟩, ⟨some "B"⟩])) ++
        sourceTitles (.error ()) ++ sourceTitles (.error ()) ++
        sourceTitles (.error ()))).take 300 ∧
    fetchHeadlines true
        ⟨fun _ => .ok (.list [⟨some "A"⟩, ⟨some "B"⟩]), fun _ => .error (),
         fun _ => .error (), fun _ => .error ()⟩ =
      fetchHeadlines true
        ⟨fun _ => .ok (.list [⟨some "A"⟩, ⟨some "B"⟩]), fun _ => .error (),
         fun _ => .error (), fun _ => .error ()⟩ :=
  ⟨c5_headline_sources.1 _,
   c5_headline_sources.2.1 true _ _ rfl rfl rfl rfl⟩

/-- Counterexample for C5 as stated: the category requests are NOT issued
through the fetch primitive's retry budget — a source whose first attempt
fails but whose second attempt would succeed contributes zero headlines,
while the claimed retry-based adapter would return its title. -/
theorem c5_headline_sources_counterexample :
    fetchHeadlines true
        ⟨fun n => if n = 0 then .error () else .ok (.list [⟨some "X"⟩]),
         fun _ => .error (), fun _ => .error (), fun _ => .error ()⟩ = [] ∧
    specHeadlinesViaRetry true
        ⟨fun n => if n = 0 then .error () else .ok (.list [⟨some "X"⟩]),
         fun _ => .error (), fun _ => .error (), fun _ => .error ()⟩ = ["X"] := by
  exact ⟨rfl, rfl⟩

/-- Helper: inserting a fresh key appends the entry at the end. -/
theorem dictInsert_fresh {α : Type} (k : String) (v : α) :
    ∀ acc : List (String × α), (∀ e ∈ acc, e.1 ≠ k) →
    dictInsert k v acc = acc ++ [(k, v)] := by
  intro acc
  induction acc with
  | nil => intro _; rfl
  | cons e rest ih =>
    intro h
    rw [dictInsert, if_neg (h e (List.mem_cons_self e rest)), ih
      (fun x hx => h x (List.mem_cons_of_mem e hx))]
    rfl

/-- Helper: a raised request error on any tracked symbol aborts the whole
yield loop. -/
theorem yieldsLoop_error (resp : String → Except Unit (List YieldQuote)) :
    ∀ (syms : List (String × String)) acc nm sym, (nm, sym) ∈ syms →
    resp sym = .error () → yieldsLoop resp syms acc = none := by
  intro syms
  induction syms with
  | nil => intro _ _ _ h; exact absurd h (List.not_mem_nil _)
  | cons p rest ih =>
    intro acc nm sym hmem herr
    rcases p with ⟨n, s⟩
    rcases List.mem_cons.mp hmem with he | hrest
    · injection he with h1 h2
      subst h1
      subst h2
      simp [yieldsLoop, herr]
    ·
      cases hr : resp s with
      | error e => simp [yieldsLoop, hr]
      | ok d =>
        cases d with
        | nil => simpa [yieldsLoop, hr] using ih acc nm sym hrest herr
        | cons q t => simpa [yieldsLoop, hr] using ih _ nm sym hrest herr

/-- Helper: on any record with a missing `name`, the benchmark loop raises. -/
theorem benchLoop_none : ∀ (data : List FmpRecord) acc r, r ∈ data →
    r.name = none → benchLoop data acc = none := by
  intro data
  induction data with
  | nil => intro _ _ h; exact absurd h (List.not_mem_nil _)
  | cons r' rest ih =>
    intro acc r hmem hname
    rcases List.mem_cons.mp hmem with he | hrest
    · subst he
      simp [benchLoop, hname]
    · cases hn : r'.name with
      | none => simp [benchLoop, hn]
      | some n => simpa [benchLoop, hn] using ih _ r hrest hname

/-- Helper: with every `name` present and the names distinct, the benchmark
loop keeps every record in order (records with a missing price included). -/
theorem benchLoop_ok : ∀ (data : List FmpRecord) acc,
    (∀ r ∈ data, r.name ≠ none) →
    (∀ r ∈ data, ∀ e ∈ acc, r.name ≠ some e.1) →
    (data.filterMap (fun r => r.name)).Nodup →
    benchLoop data acc = some (acc ++ data.map (fun r =>
      (r.name.getD "", ⟨r.price, r.change, formatFix2 (r.changesPercentage.getD 0)⟩))) := by
  intro data
  induction data with
  | nil => intro acc _ _ _; simp [benchLoop]
  | cons r rest ih =>
    intro acc hsome hfresh hnd
    obtain ⟨n, hn⟩ : ∃ n, r.name = some n := by
      cases hname : r.name with
      | none => exact absurd hname (hsome r (List.mem_cons_self r rest))
      | some n => exact ⟨n, rfl⟩
    have hcons : (r :: rest).filterMap (fun r => r.name) =
        n :: rest.filterMap (fun r => r.name) := by
      simp [List.filterMap_cons, hn]
    rw [hcons] at hnd
    have hnames : (rest.filterMap (fun r => r.name)).Nodup ∧
        n ∉ rest.filterMap (fun r => r.name) :=
      ⟨(List.nodup_cons.mp hnd).2, (List.nodup_cons.mp hnd).1⟩
    simp only [benchLoop, hn]
    rw [dictInsert_fresh _ _ acc (fun e he hek =>
      hfresh r (List.mem_cons_self r rest) e he (by rw [hn, hek]))]
    have hf2 : ∀ x ∈ rest, ∀ e ∈ acc ++
        [(n, (⟨r.price, r.change, formatFix2 (r.changesPercentage.getD 0)⟩ :
          BenchmarkQuote))], x.name ≠ some e.1 := by
      intro x hx e he
      rcases List.mem_append.mp he with hacc | hlast
      · exact hfresh x (List.mem_cons_of_mem r hx) e hacc
      · rcases List.mem_singleton.mp hlast with rfl
        intro hxn
        exact hnames.2 (List.mem_filterMap.mpr ⟨x, hx, hxn⟩)
    have hstep := ih (acc ++ [(n, (⟨r.price, r.change,
        formatFix2 (r.changesPercentage.getD 0)⟩ : BenchmarkQuote))])
      (fun x hx => hsome x (List.mem_cons_of_mem r hx)) hf2 hnames.1
    rw [hstep]
    simp [hn]

/-- C4 (corrected): the yield adapter behaves as the claim says ONLY when
every tracked symbol's request succeeds (then a symbol with an empty
response is omitted while the others are kept, an absent price kept as an
absent value); any symbol's raised request failure empties the WHOLE
mapping, discarding the other symbols' entries.  The benchmark adapter
returns the empty mapping on total request failure or when ANY record lacks
the `name` field; otherwise it keeps every record — a record missing only
its price field is kept with the price absent, not dropped. -/
theorem c4_adapter_degradation :
    (∀ resp d1 d2 d3 d4, resp "^IRX" = .ok d1 → resp "^FVX" = .ok d2 →
      resp "^TNX" = .ok d3 → resp "^TYX" = .ok d4 →
      fetchYieldsSync resp = claimYieldsBehavior resp) ∧
    (∀ resp nm sym, (nm, sym) ∈ yieldSymbols → resp sym = .error () →
      fetchYieldsSync resp = []) ∧
    fetchBenchmarksSync (.error ()) = [] ∧
    (∀ data r, r ∈ data → r.name = none → fetchBenchmarksSync (.ok data) = []) ∧
    (∀ data : List FmpRecord, (∀ r ∈ data, r.name ≠ none) →
      (data.filterMap (fun r => r.name)).Nodup →
      fetchBenchmarksSync (.ok data) = data.map (fun r =>
        (r.name.getD "",
         ⟨r.price, r.change, formatFix2 (r.changesPercentage.getD 0)⟩))) := by
  refine ⟨?_, ?_, rfl, ?_, ?_⟩
  · intro resp d1 d2 d3 d4 h1 h2 h3 h4
    rcases d1 with _ | ⟨q1, t1⟩ <;> rcases d2 with _ | ⟨q2, t2⟩ <;>
      rcases d3 with _ | ⟨q3, t3⟩ <;> rcases d4 with _ | ⟨q4, t4⟩ <;>
      simp [fetchYieldsSync, yieldsLoop, yieldSymbols, claimYieldsBehavior,
        h1, h2, h3, h4, dictInsert]
  · intro resp nm sym hmem herr
    rw [fetchYieldsSync, yieldsLoop_error resp yieldSymbols [] nm sym hmem herr]
  · intro data r hmem hname
    rw [fetchBenchmarksSync, benchLoop_none data [] r hmem hname]
  · intro data hsome hnd
    rw [fetchBenchmarksSync, benchLoop_ok data [] hsome (by simp) hnd]
    rfl

/-- Witness for C4: each characterisation applied at a concrete provider
response — all-success yields, a failing yield symbol, a benchmark record
without a name, and a benchmark record with a missing price. -/
theorem c4_adapter_degradation_witness :
    fetchYieldsSync (fun _ => .ok [⟨some (5 : ℚ)⟩]) =
      claimYieldsBehavior (fun _ => .ok [⟨some (5 : ℚ)⟩]) ∧
    fetchYieldsSync (fun _ => .error ()) = [] ∧
    fetchBenchmarksSync (.ok [⟨none, none, none, none, none, none⟩]) = [] ∧
    fetchBenchmarksSync
        (.ok [⟨some "AAA", some "Alpha", some (mkRat 1 2), none, none, none⟩]) =
      [("Alpha", ⟨none, none, formatFix2 (mkRat 1 2)⟩)] :=
  ⟨c4_adapter_degradation.1 _ _ _ _ _ rfl rfl rfl rfl,
   c4_adapter_degradation.2.1 _ "US 13W" "^IRX" (by simp [yieldSymbols]) rfl,
   c4_adapter_degradation.2.2.2.1 _ ⟨none, none, none, none, none, none⟩
     (List.mem_singleton.mpr rfl) rfl,
   by
    rw [c4_adapter_degradation.2.2.2.2 _ (by simp) (by simp)]
    rfl⟩

/-- Counterexample for C4 as stated: with the second tracked symbol's
request failing and the others succeeding, the yield adapter returns the
EMPTY mapping — the successful symbols' entries are discarded — whereas the
claimed behaviour keeps them. -/
theorem c4_adapter_degradation_counterexample :
    fetchYieldsSync (fun s => if s = "^FVX" then .error () else .ok [⟨some (5 : ℚ)⟩]) = [] ∧
    claimYieldsBehavior (fun s => if s = "^FVX" then .error () else .ok [⟨some (5 : ℚ)⟩]) =
      [("US 13W", some 5), ("US 10Y", some 5), ("US 30Y", some 5)] := by
  exact ⟨rfl, rfl⟩

/-- The gainers selection of the primary movers path: sort the first fifty
actives by absolute percent change descending, keep positive changes, take
ten. -/
def primaryGainers (data : List FmpRecord) : List FmpRecord :=
  ((pySortByKeyDesc moverKey (data.take 50)).filter
    (fun r => r.changesPercentage.getD 0 > 0)).take 10

/-- The losers selection of the primary movers path. -/
def primaryLosers (data : List FmpRecord) : List FmpRecord :=
  ((pySortByKeyDesc moverKey (data.take 50)).filter
    (fun r => r.changesPercentage.getD 0 < 0)).take 10

/-- The movers list produced by a raise-free primary path. -/
def primaryMoverList (data : List FmpRecord) : List MoverEntry :=
  (primaryGainers data).filterMap (mkPrimaryMover "gainers") ++
  (primaryLosers data).filterMap (mkPrimaryMover "losers")

/-- Helper: membership is preserved by descending insertion. -/
theorem mem_insertDesc {α : Type} (key : α → ℚ) (y : α) :
    ∀ (l : List α) (x : α), x ∈ insertDesc key y l ↔ x = y ∨ x ∈ l := by
  intro l
  induction l with
  | nil => intro x; simp [insertDesc]
  | cons z rest ih =>
    intro x
    rw [insertDesc]
    by_cases h : key z ≤ key y
    · rw [if_pos h]
      simp [List.mem_cons]
    · rw [if_neg h]
      simp only [List.mem_cons, ih x]
      tauto

/-- Helper: the stable descending sort is a permutation membership-wise. -/
theorem mem_pySortByKeyDesc {α : Type} (key : α → ℚ) :
    ∀ (l : List α) (x : α), x ∈ pySortByKeyDesc key l ↔ x ∈ l := by
  intro l
  induction l with
  | nil => intro x; simp [pySortByKeyDesc]
  | cons z rest ih =>
    intro x
    simp only [pySortByKeyDesc, List.foldr_cons] at ih ⊢
    rw [mem_insertDesc, ih x, List.mem_cons]

/-- Helper: on records with `symbol` and `name` present, the primary append
loop raises nothing and appends one entry per record. -/
theorem appendMovers_ok (tag : String) : ∀ (lst : List FmpRecord) acc,
    (∀ r ∈ lst, r.symbol ≠ none ∧ r.name ≠ none) →
    appendMovers tag lst acc = (acc ++ lst.filterMap (mkPrimaryMover tag), false) := by
  intro lst
  induction lst with
  | nil => intro acc _; simp [appendMovers]
  | cons r rest ih =>
    intro acc h
    obtain ⟨s, hs⟩ : ∃ s, r.symbol = some s := by
      cases hr : r.symbol with
      | none => exact absurd hr (h r (List.mem_cons_self r rest)).1
      | some s => exact ⟨s, rfl⟩
    obtain ⟨n, hn⟩ : ∃ n, r.name = some n := by
      cases hr : r.name with
      | none => exact absurd hr (h r (List.mem_cons_self r rest)).2
      | some n => exact ⟨n, rfl⟩
    rw [appendMovers]
    simp only [mkPrimaryMover, hs, hn]
    rw [ih _ (fun x hx => h x (List.mem_cons_of_mem r hx))]
    simp [List.filterMap_cons, mkPrimaryMover, hs, hn]

/-- Helper: on records with `symbol`, `name` and `changesPercentage`
present, the fallback append loop raises nothing and appends one entry per
record. -/
theorem appendFallback_ok (tag : String) : ∀ (lst : List FmpRecord) acc,
    (∀ r ∈ lst, r.symbol ≠ none ∧ r.name ≠ none ∧ r.changesPercentage ≠ none) →
    appendFallback tag lst acc = some (acc ++ lst.filterMap (mkFallbackMover tag)) := by
  intro lst
  induction lst with
  | nil => intro acc _; simp [appendFallback]
  | cons r rest ih =>
    intro acc h
    obtain ⟨s, hs⟩ : ∃ s, r.symbol = some s := by
      cases hr : r.symbol with
      | none => exact absurd hr (h r (List.mem_cons_self r rest)).1
      | some s => exact ⟨s, rfl⟩
    obtain ⟨n, hn⟩ : ∃ n, r.name = some n := by
      cases hr : r.name with
      | none => exact absurd hr (h r (List.mem_cons_self r rest)).2.1
      | some n => exact ⟨n, rfl⟩
    obtain ⟨cp, hcp⟩ : ∃ cp, r.changesPercentage = some cp := by
      cases hr : r.changesPercentage with
      | none => exact absurd hr (h r (List.mem_cons_self r rest)).2.2
      | some cp => exact ⟨cp, rfl⟩
    rw [appendFallback]
    simp only [mkFallbackMover, hs, hn, hcp]
    rw [ih _ (fun x hx => h x (List.mem_cons_of_mem r hx))]
    simp [List.filterMap_cons, mkFallbackMover, hs, hn, hcp]

/-- Helper: the well-formedness of the first fifty actives transfers to the
selected gainers and losers. -/
theorem primarySelection_wf (data : List FmpRecord)
    (hwf : ∀ r ∈ data.take 50, r.symbol ≠ none ∧ r.name ≠ none) :
    (∀ r ∈ primaryGainers data, r.symbol ≠ none ∧ r.name ≠ none) ∧
    (∀ r ∈ primaryLosers data, r.symbol ≠ none ∧ r.name ≠ none) := by
  constructor <;>
    · intro r hr
      apply hwf
      have h1 := List.mem_of_mem_take hr
      have h2 := List.mem_of_mem_filter h1
      exact (mem_pySortByKeyDesc moverKey _ r).mp h2

/-- C6 (corrected): the primary movers path sorts only the FIRST FIFTY
entries of the most-active list by absolute percent change descending, and
returns at most ten positive-change entries tagged `gainers` plus at most
ten negative-change entries tagged `losers`; when the primary attempt
yields zero movers (request exception, empty actives list, or no selected
entries), the adapter issues requests to the dedicated gainers and losers
endpoints and returns at most ten entries from each, tagged with the
corresponding category, without any change-magnitude re-sort. -/
theorem c6_movers_two_tier :
    (∀ (data : List FmpRecord) g l, data ≠ [] →
      (∀ r ∈ data.take 50, r.symbol ≠ none ∧ r.name ≠ none) →
      primaryMoverList data ≠ [] →
      fetchMajorMoversSync (.ok data) g l = primaryMoverList data) ∧
    (∀ g l, fetchMajorMoversSync (.error ()) g l = fallbackStep [] g l) ∧
    (∀ g l, fetchMajorMoversSync (.ok []) g l = fallbackStep [] g l) ∧
    (∀ (data : List FmpRecord) g l, data ≠ [] →
      (∀ r ∈ data.take 50, r.symbol ≠ none ∧ r.name ≠ none) →
      primaryMoverList data = [] →
      fetchMajorMoversSync (.ok data) g l = fallbackStep [] g l) ∧
    (∀ gd ld : List FmpRecord,
      (∀ r ∈ gd.take 10, r.symbol ≠ none ∧ r.name ≠ none ∧
        r.changesPercentage ≠ none) →
      (∀ r ∈ ld.take 10, r.symbol ≠ none ∧ r.name ≠ none ∧
        r.changesPercentage ≠ none) →
      fallbackStep [] (.ok gd) (.ok ld) =
        (gd.take 10).filterMap (mkFallbackMover "gainers") ++
        (ld.take 10).filterMap (mkFallbackMover "losers")) ∧
    (∀ data : List FmpRecord,
      (primaryGainers data).length ≤ 10 ∧ (primaryLosers data).length ≤ 10) ∧
    (∀ (data : List FmpRecord) r, r ∈ primaryGainers data →
      r.changesPercentage.getD 0 > 0) ∧
    (∀ (data : List FmpRecord) r, r ∈ primaryLosers data →
      r.changesPercentage.getD 0 < 0) ∧
    (∀ tag r m, mkPrimaryMover tag r = some m → m.type = tag) ∧
    (∀ tag r m, mkFallbackMover tag r = some m → m.type = tag) := by
  refine ⟨?_, fun g l => rfl, fun g l => rfl, ?_, ?_, ?_, ?_, ?_, ?_, ?_⟩
  · intro data g l hne hwf hpl
    have hwfs := primarySelection_wf data hwf
    have hg := appendMovers_ok "gainers" (primaryGainers data) [] hwfs.1
    have hl2 := appendMovers_ok "losers" (primaryLosers data)
      ((primaryGainers data).filterMap (mkPrimaryMover "gainers")) hwfs.2
    simp only [List.nil_append] at hg
    simp only [primaryGainers, primaryLosers] at hg hl2
    simp only [primaryMoverList, primaryGainers, primaryLosers] at hpl ⊢
    simp only [fetchMajorMoversSync, if_neg hne, hg, hl2, if_neg hpl]
  · intro data g l hne hwf hpl
    have hwfs := primarySelection_wf data hwf
    have hg := appendMovers_ok "gainers" (primaryGainers data) [] hwfs.1
    have hl2 := appendMovers_ok "losers" (primaryLosers data)
      ((primaryGainers data).filterMap (mkPrimaryMover "gainers")) hwfs.2
    simp only [List.nil_append] at hg
    simp only [primaryGainers, primaryLosers] at hg hl2
    simp only [primaryMoverList, primaryGainers, primaryLosers] at hpl
    simp only [fetchMajorMoversSync, if_neg hne, hg, hl2, hpl, if_true]
  · intro gd ld hg hl2
    have h1 := appendFallback_ok "gainers" (gd.take 10) [] hg
    have h2 := appendFallback_ok "losers" (ld.take 10)
      ((gd.take 10).filterMap (mkFallbackMover "gainers")) hl2
    simp only [List.nil_append] at h1
    simp only [fallbackStep, h1, h2]
  · intro data
    exact ⟨List.length_take_le 10 _, List.length_take_le 10 _⟩
  · intro data r hr
    have h := (List.mem_filter.mp (List.mem_of_mem_take hr)).2
    simpa using h
  · intro data r hr
    have h := (List.mem_filter.mp (List.mem_of_mem_take hr)).2
    simpa using h
  · intro tag r m
    cases hs : r.symbol <;> cases hn : r.name <;>
      (simp [mkPrimaryMover, hs, hn]; try (rintro rfl; rfl))
  · intro tag r m
    cases hs : r.symbol <;> cases hn : r.name <;> cases hc : r.changesPercentage <;>
      (simp [mkFallbackMover, hs, hn, hc]; try (rintro rfl; rfl))

/-- Witness for C6: the primary characterisation on a two-record actives
list (one gainer, one loser) and the fallback characterisation on concrete
endpoint data. -/
theorem c6_movers_two_tier_witness :
    fetchMajorMoversSync
        (.ok [⟨some "G", some "Gn", some (2 : ℚ), none, none, none⟩,
              ⟨some "L", some "Ln", some (mkRat (-3) 1), none, none, none⟩])
        (.error ()) (.error ()) =
      primaryMoverList
        [⟨some "G", some "Gn", some (2 : ℚ), none, none, none⟩,
         ⟨some "L", some "Ln", some (mkRat (-3) 1), none, none, none⟩] ∧
    fallbackStep []
        (.ok [⟨some "G", some "Gn", some (2 : ℚ), none, none, none⟩])
        (.ok [⟨some "L", some "Ln", some (mkRat (-3) 1), none, none, none⟩]) =
      (([(⟨some "G", some "Gn", some (2 : ℚ), none, none, none⟩ : FmpRecord)].take 10).filterMap
        (mkFallbackMover "gainers") ++
       ([(⟨some "L", some "Ln", some (mkRat (-3) 1), none, none, none⟩ : FmpRecord)].take 10).filterMap
        (mkFallbackMover "losers")) :=
  ⟨c6_movers_two_tier.1 _ _ _ (by decide) (by decide) (by decide),
   c6_movers_two_tier.2.2.2.2.1 _ _ (by decide) (by decide)⟩

/-- A 51-record actives response: fifty small gainers followed by one huge
gainer, exposing the primary path's truncation to the first fifty records. -/
def ceActives : List FmpRecord :=
  (List.range 50).map (fun _ => ⟨some "S", some "Small", some (1 : ℚ), none, none, none⟩) ++
  [⟨some "BIG", some "Big", some (100 : ℚ), none, none, none⟩]

/-- Counterexample for C6 as stated: the adapter sorts only the first fifty
entries of the most-active list, so the fifty-first record — the largest
absolute mover, which the claimed whole-list sort would put first among the
gainers — is absent from the adapter's output. -/
theorem c6_movers_two_tier_counterexample :
    "BIG" ∉ (fetchMajorMoversSync (.ok ceActives) (.error ()) (.error ())).map
      (fun m => m.symbol) ∧
    "BIG" ∈ (specPrimaryMovers ceActives).map (fun m => m.symbol) ∧
    (specPrimaryMovers ceActives).head?.map (fun m => m.symbol) = some "BIG" := by
  exact ⟨by decide, by decide, by decide⟩

/-- C1 (corrected): the circuit-breaker check classifies a snapshot
non-viable if and only if headlines, yields, benchmarks and movers are all
empty, and on non-viable the run skips the Synthesis Client entirely
(`analyzeMarket` returns the descriptive circuit-breaker error with an
empty synthesis-invocation trace exactly in that case) — BUT the error text
is returned as the analysis string, so the orchestrator still hands it to
the email dispatcher (and to the chat dispatcher when configured) and
reports the run with `success=true`, not `success=false`. -/
theorem c1_circuit_breaker :
    ∀ (today : String) rH rY rB rM p f (emailOk sc sk : Bool),
      (analyzeMarket today rH rY rB rM p f = .ok (circuitBreakerMessage, []) ↔
        nonViable (collected [] rH) (collected [] rY) (collected [] rB)
          (collected [] rM) = true) ∧
      (nonViable (collected [] rH) (collected [] rY) (collected [] rB)
          (collected [] rM) = true →
        (runMarketResearch today rH rY rB rM p f emailOk sc sk).1 =
          ⟨true, some emailOk, some (if sc then sk else true), none,
           "Market research completed successfully"⟩ ∧
        (runMarketResearch today rH rY rB rM p f emailOk sc sk).2 =
          ⟨[circuitBreakerMessage],
           if sc then [circuitBreakerMessage] else []⟩) := by
  intro today rH rY rB rM p f emailOk sc sk
  have hviable : nonViable (collected [] rH) (collected [] rY) (collected [] rB)
        (collected [] rM) = false →
      analyzeMarket today rH rY rB rM p f ≠ .ok (circuitBreakerMessage, []) := by
    intro hnv h
    simp only [analyzeMarket, hnv, Bool.false_eq_true, if_false] at h
    cases hpi : promptInputOf today (collected [] rH) (collected [] rY)
        (collected [] rB) (collected [] rM) with
    | error e => rw [hpi] at h; exact Except.noConfusion h
    | ok input =>
      rw [hpi] at h
      cases hp : p input with
      | ok r => simp [tryLlmWithFallback, hp] at h
      | error e =>
        cases hf : f input with
        | ok r => simp [tryLlmWithFallback, hp, hf] at h
        | error e2 => simp [tryLlmWithFallback, hp, hf] at h
  constructor
  · constructor
    · intro h
      cases hnv : nonViable (collected [] rH) (collected [] rY) (collected [] rB)
          (collected [] rM) with
      | true => rfl
      | false => exact absurd h (hviable hnv)
    · intro h
      simp [analyzeMarket, h]
  · intro h
    have ha : analyzeMarket today rH rY rB rM p f = .ok (circuitBreakerMessage, []) := by
      simp [analyzeMarket, h]
    constructor <;> simp [runMarketResearch, ha]

/-- Witness for C1: with all four adapter outcomes empty, the analysis is
the circuit-breaker message with zero synthesis invocations, yet the run
result has `success=true` and both dispatchers receive the error text. -/
theorem c1_circuit_breaker_witness :
    analyzeMarket "D" (.ok []) (.ok []) (.ok []) (.ok [])
        (fun _ => .error "E") (fun _ => .error "E") =
      .ok (circuitBreakerMessage, []) ∧
    (runMarketResearch "D" (.ok []) (.ok []) (.ok []) (.ok [])
        (fun _ => .error "E") (fun _ => .error "E") true true true).1 =
      ⟨true, some true, some (if true then true else true), none,
       "Market research completed successfully"⟩ ∧
    (runMarketResearch "D" (.ok []) (.ok []) (.ok []) (.ok [])
        (fun _ => .error "E") (fun _ => .error "E") true true true).2 =
      ⟨[circuitBreakerMessage], if true then [circuitBreakerMessage] else []⟩ :=
  ⟨(c1_circuit_breaker "D" (.ok []) (.ok []) (.ok []) (.ok [])
      (fun _ => .error "E") (fun _ => .error "E") true true true).1.mpr (by decide),
   ((c1_circuit_breaker "D" (.ok []) (.ok []) (.ok []) (.ok [])
      (fun _ => .error "E") (fun _ => .error "E") true true true).2 (by decide)).1,
   ((c1_circuit_breaker "D" (.ok []) (.ok []) (.ok []) (.ok [])
      (fun _ => .error "E") (fun _ => .error "E") true true true).2 (by decide)).2⟩

/-- Counterexample for C1 as stated: on an all-empty snapshot the run result
has `success=true` (not `false`) and the email dispatcher IS called — with
the circuit-breaker error text as the report body. -/
theorem c1_circuit_breaker_counterexample :
    (runMarketResearch "D" (.ok []) (.ok []) (.ok []) (.ok [])
        (fun _ => .error "E") (fun _ => .error "E") true true true).1.success = true ∧
    (runMarketResearch "D" (.ok []) (.ok []) (.ok []) (.ok [])
        (fun _ => .error "E") (fun _ => .error "E") true true true).2.emailDispatched =
      [circuitBreakerMessage] := by
  exact ⟨rfl, rfl⟩

/-- C2 (corrected): whenever both the primary and the fallback model calls
fail, the synthesis error carries both underlying causes concatenated — but
`analyze_market` catches it and returns the combined error text as the
analysis string, so the run is reported with `success=true` (not as failed)
and that error text IS handed to the email dispatcher. -/
theorem c2_synthesis_failure_run :
    ∀ (today : String) rH rY rB rM p f e1 e2 input (emailOk sc sk : Bool),
      nonViable (collected [] rH) (collected [] rY) (collected [] rB)
        (collected [] rM) = false →
      promptInputOf today (collected [] rH) (collected [] rY) (collected [] rB)
        (collected [] rM) = .ok input →
      p input = .error e1 → f input = .error e2 →
      analyzeMarket today rH rY rB rM p f =
        .ok ("An error occurred during AI analysis: " ++
          ("Both models failed. Primary: " ++ e1 ++ ", Fallback: " ++ e2),
          [(true, input), (false, input)]) ∧
      (runMarketResearch today rH rY rB rM p f emailOk sc sk).1 =
        ⟨true, some emailOk, some (if sc then sk else true), none,
         "Market research completed successfully"⟩ ∧
      (runMarketResearch today rH rY rB rM p f emailOk sc sk).2.emailDispatched =
        ["An error occurred during AI analysis: " ++
          ("Both models failed. Primary: " ++ e1 ++ ", Fallback: " ++ e2)] := by
  intro today rH rY rB rM p f e1 e2 input emailOk sc sk hnv hpi hp hf
  have ha : analyzeMarket today rH rY rB rM p f =
      .ok ("An error occurred during AI analysis: " ++
        ("Both models failed. Primary: " ++ e1 ++ ", Fallback: " ++ e2),
        [(true, input), (false, input)]) := by
    simp only [analyzeMarket, hnv, Bool.false_eq_true, if_false, hpi,
      tryLlmWithFallback, hp, hf]
  refine ⟨ha, ?_, ?_⟩ <;> simp [runMarketResearch, ha]

/-- Witness for C2: a viable snapshot (one headline) with both model mocks
failing — the analysis is the combined two-cause error text, the run result
still has `success=true`, and the email dispatcher receives that text. -/
theorem c2_synthesis_failure_run_witness :
    analyzeMarket "D" (.ok ["h"]) (.ok []) (.ok []) (.ok [])
        (fun _ => .error "E1") (fun _ => .error "E2") =
      .ok ("An error occurred during AI analysis: " ++
        ("Both models failed. Primary: " ++ "E1" ++ ", Fallback: " ++ "E2"),
        [(true, ⟨"D", "h", "Data not available.", "Data not available.",
          "Data not available."⟩),
         (false, ⟨"D", "h", "Data not available.", "Data not available.",
          "Data not available."⟩)]) ∧
    (runMarketResearch "D" (.ok ["h"]) (.ok []) (.ok []) (.ok [])
        (fun _ => .error "E1") (fun _ => .error "E2") true false true).1 =
      ⟨true, some true, some (if false then true else true), none,
       "Market research completed successfully"⟩ :=
  ⟨(c2_synthesis_failure_run "D" (.ok ["h"]) (.ok []) (.ok []) (.ok [])
      (fun _ => .error "E1") (fun _ => .error "E2") "E1" "E2"
      ⟨"D", "h", "Data not available.", "Data not available.",
        "Data not available."⟩ true false true
      (by decide) (by decide) rfl rfl).1,
   (c2_synthesis_failure_run "D" (.ok ["h"]) (.ok []) (.ok []) (.ok [])
      (fun _ => .error "E1") (fun _ => .error "E2") "E1" "E2"
      ⟨"D", "h", "Data not available.", "Data not available.",
        "Data not available."⟩ true false true
      (by decide) (by decide) rfl rfl).2.1⟩

/-- Counterexample for C2 as stated: with both models failing on a viable
snapshot, the run reports `success=true` (the claim says the whole run is
reported as failed) and the combined error text IS handed to the email
dispatcher (the claim says no such text is ever delivered). -/
theorem c2_synthesis_failure_run_counterexample :
    (runMarketResearch "D" (.ok ["h"]) (.ok []) (.ok []) (.ok [])
        (fun _ => .error "E1") (fun _ => .error "E2") true true true).1.success = true ∧
    (runMarketResearch "D" (.ok ["h"]) (.ok []) (.ok []) (.ok [])
        (fun _ => .error "E1") (fun _ => .error "E2") true true true).2.emailDispatched =
      ["An error occurred during AI analysis: Both models failed. Primary: E1, Fallback: E2"] := by
  exact ⟨rfl, by decide⟩

end MarketAgent
